import Mathlib

/-!
Verification of the trade-execution and TP/SL edge function of
binance-guardian-pro (`supabase/functions` auto-trader, source file
`src/unnamed/part_000`).

The embedding is shallow: the TypeScript functions `executeTrade`,
`placeTPSLOrders` and `checkTakeProfitStopLoss` are translated into pure
Lean functions over an explicit environment record that fixes the
responses of every external collaborator (the user-settings row, the
orders-table query, the exchange HTTP response, the ledger insert).
Numbers are modelled as rationals (the TypeScript code uses JS numbers;
none of the claims under study concerns floating-point rounding), and
JavaScript truthiness on optional numbers/strings is modelled explicitly.
Timestamps are epoch milliseconds as naturals (ISO-8601 strings with
millisecond precision compare lexicographically exactly as their epoch
values do).
-/

set_option autoImplicit false

namespace BinanceGuardian

/-- Order side, `'BUY' | 'SELL'` in `TradeSignal`. -/
inductive Side where
  | BUY
  | SELL
deriving DecidableEq, Repr

/-- Order kind, `'MARKET' | 'LIMIT'` in `TradeSignal`. -/
inductive OrderType where
  | MARKET
  | LIMIT
deriving DecidableEq, Repr

/-- Time in force, `'GTC' | 'IOC' | 'FOK'` in `TradeSignal`. -/
inductive TIF where
  | GTC
  | IOC
  | FOK
deriving DecidableEq, Repr

/-- The `TradeSignal` payload of the `execute_trade` action
(part_000 lines 8–19).  Optional JS fields are `Option`. -/
structure TradeSignal where
  symbol : String
  side : Side
  quantity : ℚ
  price : Option ℚ
  type : OrderType
  timeInForce : Option TIF
  userId : String
  botId : Option String
  stopLossPercent : Option ℚ
  takeProfitPercent : Option ℚ
deriving DecidableEq, Repr

/-- The `user_settings` row (fields of it that `executeTrade` /
`checkTakeProfitStopLoss` read).  `binance_api_key` / `binance_secret_key`
are `Option String`; `none` models a NULL column.  JS truthiness on these
strings also treats `""` as absent, see `truthyStr`. -/
structure UserSettings where
  auto_trading_enabled : Bool
  auto_tp_sl_enabled : Bool
  binance_api_key : Option String
  binance_secret_key : Option String
  max_daily_trades : ℕ
  max_position_size : ℚ
  default_stop_loss_percent : ℚ
  default_take_profit_percent : ℚ
deriving DecidableEq, Repr

/-- One fill entry of the exchange order response (part_000 lines 35–40). -/
structure Fill where
  price : ℚ
  qty : ℚ
  commission : ℚ
  commissionAsset : String
deriving DecidableEq, Repr

/-- The `BinanceOrderResponse` (part_000 lines 21–41), restricted to the
fields the code reads.  `price` is a decimal string on the wire;
`none` models the empty string (the only falsy string), so the JS test
`binanceOrder.price ? parseFloat(binanceOrder.price) : null` is `isSome`.
`fills` is `Option` because the code guards `binanceOrder.fills &&
binanceOrder.fills.length > 0` (the array may be absent). `side` is kept
as the raw string the exchange returns. -/
structure BinanceOrderResponse where
  symbol : String
  orderId : ℕ
  price : Option ℚ
  origQty : ℚ
  executedQty : ℚ
  status : String
  timeInForce : String
  type : String
  side : String
  fills : Option (List Fill)
deriving DecidableEq, Repr

/-- A row of the `orders` table as seen by the daily-trade-count query
(`select('id')` filtered on `user_id` and `created_at`); `createdAt` is
the row's creation time in epoch milliseconds. -/
structure LedgerRow where
  userId : String
  createdAt : ℕ
deriving DecidableEq, Repr

/-- The order row `executeTrade` inserts (part_000 lines 184–202).
`executed_at_set` models whether `executed_at` is non-null (the code sets
it to the current time only when the exchange status is `FILLED`).
`order_id` is the exchange order id rendered to a string. -/
structure OrderData where
  user_id : String
  bot_id : Option String
  symbol : String
  side : String
  type : String
  quantity : ℚ
  price : Option ℚ
  filled_quantity : ℚ
  avg_fill_price : Option ℚ
  status : String
  order_id : String
  time_in_force : String
  commission : ℚ
  executed_at_set : Bool
  stop_loss_price : Option ℚ
  take_profit_price : Option ℚ
  auto_tp_sl_enabled : Bool
deriving DecidableEq, Repr

/-- Environment of one `executeTrade` invocation: the responses of every
external collaborator, fixed up front.  `now` is the common value of
`new Date()` / `Date.now()` in epoch milliseconds.  `userSettings = none`
models `settingsError || !userSettings`.  `tradesQueryError` models the
daily-count query returning an error (its `data` is then null).
`exchangeOk/Status/ErrorText/Order` model the HTTP response of the order
POST; `insertError` models the ledger insert failing. -/
structure Env where
  now : ℕ
  userSettings : Option UserSettings
  tradesQueryError : Bool
  ledger : List LedgerRow
  exchangeOk : Bool
  exchangeStatus : ℕ
  exchangeErrorText : String
  exchangeOrder : BinanceOrderResponse
  insertError : Bool
deriving DecidableEq, Repr

/-- Error taxonomy of `execute_trade` (spec §7), one constructor per
throw site of the code, carrying the thrown message.  `runtimeFault`
models a JavaScript runtime exception that is not a deliberate `throw`
(the `const` reassignment TypeError of part_000 line 139). -/
inductive TradeError where
  | configurationError (msg : String)
  | limitExceededError (msg : String)
  | exchangeError (status : ℕ) (body : String)
  | persistenceError (msg : String)
  | runtimeFault (msg : String)
deriving DecidableEq, Repr

/-- Observable side effects of one `executeTrade` invocation:
number of POSTs to the exchange order endpoint (including the two made by
`placeTPSLOrders` when it runs), the rows actually written to the orders
table, and whether `placeTPSLOrders` was invoked. -/
structure ExecEffects where
  exchangeOrderCalls : ℕ
  ledgerInserts : List OrderData
  tpslPlacerInvoked : Bool
deriving DecidableEq, Repr

/-- No effect yet: zero exchange calls, no ledger write, placer not run. -/
def noEffects : ExecEffects := ⟨0, [], false⟩

/-- The success payload of `executeTrade` (part_000 lines 225–233):
the saved order row plus the computed protective prices and the
protection flag. -/
structure ExecSuccess where
  order : OrderData
  stopLossPrice : Option ℚ
  takeProfitPrice : Option ℚ
  tpSlEnabled : Bool
deriving DecidableEq, Repr

deriving instance DecidableEq for Except

/-- Result of one `executeTrade` invocation: the returned value or thrown
error, together with the side effects that happened before termination. -/
structure ExecResult where
  result : Except TradeError ExecSuccess
  effects : ExecEffects
deriving DecidableEq, Repr

/-- JS truthiness of an optional number: `undefined`/`null` and `0` are
falsy. -/
def truthyNum (v : Option ℚ) : Bool :=
  match v with
  | none => false
  | some q => q ≠ 0

/-- JS `a || b` for an optional number `a`: yields `b` when `a` is absent
or `0` (falsy), else the value of `a`. -/
def jsOrNum (v : Option ℚ) (d : ℚ) : ℚ :=
  match v with
  | none => d
  | some q => if q = 0 then d else q

/-- JS truthiness of an optional string: `undefined`/`null` and the empty
string are falsy. -/
def truthyStr (v : Option String) : Bool :=
  match v with
  | none => false
  | some s => s ≠ ""

/-- Milliseconds per day. -/
def msPerDay : ℕ := 86400000

/-- Epoch milliseconds of 00:00:00.000 UTC of the calendar day containing
`now`; this is the instant denoted by the string
`${today}T00:00:00.000Z` the code builds from
`new Date().toISOString().split('T')[0]`. -/
def dayStart (now : ℕ) : ℕ := now / msPerDay * msPerDay

/-- The daily-trade-count query of part_000 lines 113–118: rows of the
user whose `created_at` is `≥ ${today}T00:00:00.000Z` and
`< ${today}T23:59:59.999Z`.  The upper bound string denotes the instant
`dayStart now + (msPerDay - 1)`, i.e. the last representable millisecond
of the day, and the comparison is strict. -/
def dailyTradesFilter (now : ℕ) (uid : String) (ledger : List LedgerRow) :
    List LedgerRow :=
  ledger.filter fun r =>
    r.userId = uid ∧ dayStart now ≤ r.createdAt ∧
      r.createdAt < dayStart now + (msPerDay - 1)

/-- The `data` part of the daily-count query result: `none` when the
query errors (then the code only logs), else the filtered rows. -/
def dailyTradesQuery (env : Env) (uid : String) : Option (List LedgerRow) :=
  if env.tradesQueryError then none
  else some (dailyTradesFilter env.now uid env.ledger)

/-- Part_000 lines 169–181: the protective stop-loss / take-profit price
pair, `(null, null)` unless auto TP/SL is on and the response has at
least one fill; else computed from the first fill price and the resolved
percentages (`signal.stopLossPercent || default`, JS `||`). -/
def computeProtPrices (us : UserSettings) (signal : TradeSignal)
    (order : BinanceOrderResponse) : Option ℚ × Option ℚ :=
  match order.fills with
  | some (f :: _) =>
    if us.auto_tp_sl_enabled then
      let avgPrice := f.price
      let slPercent := jsOrNum signal.stopLossPercent us.default_stop_loss_percent
      let tpPercent := jsOrNum signal.takeProfitPercent us.default_take_profit_percent
      if signal.side = Side.BUY then
        (some (avgPrice * (1 - slPercent / 100)),
         some (avgPrice * (1 + tpPercent / 100)))
      else
        (some (avgPrice * (1 + slPercent / 100)),
         some (avgPrice * (1 - tpPercent / 100)))
    else (none, none)
  | _ => (none, none)

/-- Part_000 lines 184–202: the row inserted into the orders table. -/
def buildOrderData (signal : TradeSignal) (us : UserSettings)
    (order : BinanceOrderResponse) (stopLossPrice takeProfitPrice : Option ℚ) :
    OrderData :=
  { user_id := signal.userId
    bot_id := signal.botId
    symbol := order.symbol
    side := order.side
    type := order.type
    quantity := order.origQty
    price := order.price
    filled_quantity := order.executedQty
    avg_fill_price :=
      match order.fills with
      | some (f :: _) => some f.price
      | _ => none
    status := order.status.toLower
    order_id := toString order.orderId
    time_in_force := order.timeInForce
    commission :=
      match order.fills with
      | some (f :: _) => f.commission
      | _ => 0
    executed_at_set := order.status = "FILLED"
    stop_loss_price := stopLossPrice
    take_profit_price := takeProfitPrice
    auto_tp_sl_enabled := us.auto_tp_sl_enabled }

/-- Part_000 line 216: `placeTPSLOrders` runs only when auto TP/SL is on,
the exchange status is `FILLED`, and both protective prices are truthy
(JS: `null` and `0` are falsy). -/
def tpslGate (us : UserSettings) (order : BinanceOrderResponse)
    (stopLossPrice takeProfitPrice : Option ℚ) : Bool :=
  us.auto_tp_sl_enabled ∧ order.status = "FILLED" ∧
    truthyNum stopLossPrice ∧ truthyNum takeProfitPrice

/-- The function `executeTrade` (part_000 lines 89–241), step by step:
settings lookup, auto-trading gate, credentials gate, daily-trade-count
gate, position-size gate, query-string build (the LIMIT branch at line
139 assigns to the `const` binding `queryString` of line 136 and so
throws a TypeError at runtime before anything is signed or sent),
HMAC signing and order POST, TP/SL computation, ledger insert, optional
`placeTPSLOrders` (two further exchange POSTs, failures swallowed). -/
def executeTrade (env : Env) (signal : TradeSignal) : ExecResult :=
  match env.userSettings with
  | none => ⟨.error (.configurationError "User settings not found"), noEffects⟩
  | some us =>
    if !us.auto_trading_enabled then
      ⟨.error (.configurationError "Auto trading is disabled for this user"),
        noEffects⟩
    else if !truthyStr us.binance_api_key || !truthyStr us.binance_secret_key then
      ⟨.error (.configurationError "Binance API credentials not configured"),
        noEffects⟩
    else if (match dailyTradesQuery env signal.userId with
             | some ts => decide (us.max_daily_trades ≤ ts.length)
             | none => false) then
      ⟨.error (.limitExceededError "Daily trade limit reached"), noEffects⟩
    else if us.max_position_size < signal.quantity * (signal.price.getD 0) then
      ⟨.error (.limitExceededError "Trade size exceeds maximum position size"),
        noEffects⟩
    else if truthyNum signal.price ∧ signal.type = OrderType.LIMIT then
      ⟨.error (.runtimeFault "Assignment to constant variable"), noEffects⟩
    else if !env.exchangeOk then
      ⟨.error (.exchangeError env.exchangeStatus env.exchangeErrorText),
        ⟨1, [], false⟩⟩
    else
      let binanceOrder := env.exchangeOrder
      let prot := computeProtPrices us signal binanceOrder
      let stopLossPrice := prot.1
      let takeProfitPrice := prot.2
      let orderData :=
        buildOrderData signal us binanceOrder stopLossPrice takeProfitPrice
      if env.insertError then
        ⟨.error (.persistenceError "Failed to save order to database"),
          ⟨1, [], false⟩⟩
      else
        let invoked := tpslGate us binanceOrder stopLossPrice takeProfitPrice
        ⟨.ok ⟨orderData, stopLossPrice, takeProfitPrice, us.auto_tp_sl_enabled⟩,
          ⟨1 + (if invoked then 2 else 0), [orderData], invoked⟩⟩

/-- Trigger kind set by the TP/SL check (part_000 lines 329 / 332 and
337 / 340). -/
inductive TriggerType where
  | STOP_LOSS
  | TAKE_PROFIT
deriving DecidableEq, Repr

/-- An orders-table row as returned by the open-positions query of
part_000 lines 301–308 (status `'filled'`, `auto_tp_sl_enabled` true,
both protective prices non-null — hence `ℚ`, not `Option ℚ`), restricted
to the fields the loop reads.  `side` is the raw stored string. -/
structure Position where
  id : String
  symbol : String
  side : String
  filled_quantity : ℚ
  stop_loss_price : ℚ
  take_profit_price : ℚ
  bot_id : Option String
deriving DecidableEq, Repr

/-- Part_000 lines 322–342: decide whether a position triggers, and how.
`shouldTrigger`/`triggerType` are an if/else-if chain, so at most one
trigger is set; the stop-loss test comes first in both arms. -/
def evalTrigger (position : Position) (currentPrice : ℚ) : Option TriggerType :=
  if position.side = "BUY" then
    if currentPrice ≤ position.stop_loss_price then some .STOP_LOSS
    else if position.take_profit_price ≤ currentPrice then some .TAKE_PROFIT
    else none
  else
    if position.stop_loss_price ≤ currentPrice then some .STOP_LOSS
    else if currentPrice ≤ position.take_profit_price then some .TAKE_PROFIT
    else none

/-- Part_000 lines 346–353: the synthesized closing `TradeSignal` —
opposite side, the position's filled quantity, kind MARKET, same user and
bot id; every other optional field is left undefined. -/
def closeSignal (userId : String) (position : Position) : TradeSignal :=
  { symbol := position.symbol
    side := if position.side = "BUY" then Side.SELL else Side.BUY
    quantity := position.filled_quantity
    price := none
    type := OrderType.MARKET
    timeInForce := none
    userId := userId
    botId := position.bot_id
    stopLossPercent := none
    takeProfitPercent := none }

/-- One element of the `results` array of `checkTakeProfitStopLoss`:
on trigger either the successful close (trigger kind, current price,
close result, lines 356–361) or the caught per-position error
(lines 365–368). -/
structure ExitEntry where
  positionId : String
  outcome : Except TradeError (TriggerType × ℚ × ExecSuccess)
deriving DecidableEq, Repr

/-- Pointwise accumulation of side effects across loop iterations. -/
def addEffects (a b : ExecEffects) : ExecEffects :=
  ⟨a.exchangeOrderCalls + b.exchangeOrderCalls,
   a.ledgerInserts ++ b.ledgerInserts,
   a.tpslPlacerInvoked || b.tpslPlacerInvoked⟩

/-- The loop body of part_000 lines 315–370 for one position, given the
ticker price for its symbol: no entry when nothing triggers; otherwise
run `executeTrade` on the synthesized closing signal and record either
the success or the caught error, together with the side effects of that
nested call.  (The ticker fetch itself is modelled as always returning a
price.) -/
def processPosition (tradeEnv : Env) (userId : String) (position : Position)
    (currentPrice : ℚ) : Option ExitEntry × ExecEffects :=
  match evalTrigger position currentPrice with
  | none => (none, noEffects)
  | some t =>
    let er := executeTrade tradeEnv (closeSignal userId position)
    match er.result with
    | .ok succ => (some ⟨position.id, .ok (t, currentPrice, succ)⟩, er.effects)
    | .error e => (some ⟨position.id, .error e⟩, er.effects)

/-- Run the position loop in order, collecting the pushed entries and
accumulating side effects. -/
def runPositions (tradeEnv : Env) (userId : String) (priceOf : String → ℚ) :
    List Position → List ExitEntry × ExecEffects
  | [] => ([], noEffects)
  | p :: rest =>
    let head := processPosition tradeEnv userId p (priceOf p.symbol)
    let tail := runPositions tradeEnv userId priceOf rest
    (head.1.toList ++ tail.1, addEffects head.2 tail.2)

/-- Environment of one `checkTakeProfitStopLoss` invocation:
`userSettings = none` models `settingsError || !userSettings`;
`positions = none` models the open-positions query erroring; `priceOf`
is the ticker price per symbol; `tradeEnv` is the environment every
nested `executeTrade` call runs against (its own `userSettings` is the
fresh re-read the nested call performs). -/
structure CheckEnv where
  userSettings : Option UserSettings
  positions : Option (List Position)
  priceOf : String → ℚ
  tradeEnv : Env

/-- Result of `checkTakeProfitStopLoss` (part_000 lines 285–376):
the early `'Auto TP/SL not enabled'` response, the thrown
`'Failed to fetch positions'`, or the collected per-position results
with the accumulated side effects. -/
inductive CheckResult where
  | notEnabled
  | fetchFailed
  | results (entries : List ExitEntry) (fx : ExecEffects)
deriving DecidableEq, Repr

/-- The function `checkTakeProfitStopLoss` (part_000 lines 285–376): settings gate,
open-positions query, then the per-position loop. -/
def checkTakeProfitStopLoss (cenv : CheckEnv) (userId : String) : CheckResult :=
  match cenv.userSettings with
  | none => .notEnabled
  | some us =>
    if !us.auto_tp_sl_enabled then .notEnabled
    else
      match cenv.positions with
      | none => .fetchFailed
      | some ps =>
        let r := runPositions cenv.tradeEnv userId cenv.priceOf ps
        .results r.1 r.2

/-! ## General lemmas about `executeTrade` -/

/-- Inversion: when `executeTrade` returns successfully, every gate was
passed and the returned payload and effects are exactly the ones built in
the final branch from `computeProtPrices` and `buildOrderData`. -/
lemma executeTrade_ok_inv (env : Env) (signal : TradeSignal) (us : UserSettings)
    (r : ExecSuccess) (hus : env.userSettings = some us)
    (hok : (executeTrade env signal).result = Except.ok r) :
    r.stopLossPrice = (computeProtPrices us signal env.exchangeOrder).1 ∧
    r.takeProfitPrice = (computeProtPrices us signal env.exchangeOrder).2 ∧
    r.order = buildOrderData signal us env.exchangeOrder
        (computeProtPrices us signal env.exchangeOrder).1
        (computeProtPrices us signal env.exchangeOrder).2 ∧
    r.tpSlEnabled = us.auto_tp_sl_enabled ∧
    (executeTrade env signal).effects.ledgerInserts = [r.order] ∧
    (executeTrade env signal).effects.tpslPlacerInvoked =
      tpslGate us env.exchangeOrder r.stopLossPrice r.takeProfitPrice := by
  simp only [executeTrade, hus] at hok ⊢
  split_ifs at hok ⊢ <;> simp at hok <;> subst hok <;> simp_all

/-- Disabled auto-trading short-circuits `executeTrade` before any
network or ledger side effect (part_000 lines 103–105). -/
lemma executeTrade_disabled (env : Env) (signal : TradeSignal)
    (us : UserSettings) (hus : env.userSettings = some us)
    (hoff : us.auto_trading_enabled = false) :
    executeTrade env signal =
      ⟨.error (.configurationError "Auto trading is disabled for this user"),
        noEffects⟩ := by
  simp [executeTrade, hus, hoff]

/-- When the daily-count query succeeds and the count has reached the
cap, `executeTrade` fails at the daily gate (part_000 lines 124–126)
before any network or ledger side effect. -/
lemma executeTrade_daily_cap (env : Env) (signal : TradeSignal)
    (us : UserSettings) (hus : env.userSettings = some us)
    (hon : us.auto_trading_enabled = true)
    (hk : truthyStr us.binance_api_key = true)
    (hs : truthyStr us.binance_secret_key = true)
    (hq : env.tradesQueryError = false)
    (hcnt : us.max_daily_trades ≤
      (dailyTradesFilter env.now signal.userId env.ledger).length) :
    executeTrade env signal =
      ⟨.error (.limitExceededError "Daily trade limit reached"), noEffects⟩ := by
  simp [executeTrade, hus, hon, hk, hs, dailyTradesQuery, hq, hcnt]

/-! ## Concrete fixtures used by witnesses and counterexamples -/

/-- A fully configured user: trading and auto TP/SL on, credentials set,
cap of 10 trades/day, position cap 100000, default SL 5%, default TP 10%. -/
def okSettings : UserSettings :=
  ⟨true, true, some "k", some "s", 10, 100000, 5, 10⟩

/-- An exchange response: market BUY on BTCUSDT fully filled by a single
fill at price 100. -/
def filledOrder : BinanceOrderResponse :=
  ⟨"BTCUSDT", 42, some 0, 1, 1, "FILLED", "GTC", "MARKET", "BUY",
    some [⟨100, 1, 1 / 10, "BNB"⟩]⟩

/-- A benign environment: noon UTC of day 0, settings present, empty
ledger, exchange accepting, insert succeeding. -/
def okEnv : Env :=
  ⟨43200000, some okSettings, false, [], true, 200, "", filledOrder, false⟩

/-- A market BUY request for one unit of BTCUSDT by user `u1`, all
optional fields absent. -/
def marketBuy : TradeSignal :=
  ⟨"BTCUSDT", .BUY, 1, none, .MARKET, none, "u1", none, none, none⟩

/-- The fixture `okSettings` with the auto-trading master switch off. -/
def offSettings : UserSettings := { okSettings with auto_trading_enabled := false }

/-- The fixture `okEnv` for a user whose auto-trading switch is off. -/
def offEnv : Env := { okEnv with userSettings := some offSettings }

/-- The fixture `okEnv` where the exchange rejects the order with status 400, body
`bad`. -/
def rejEnv : Env :=
  { okEnv with exchangeOk := false, exchangeStatus := 400, exchangeErrorText := "bad" }

/-! ## C3 -/

/-- C3: for every trade request whose user's `UserTradingLimits` record
has `auto_trading_enabled = false`, `execute_trade` fails with a
`ConfigurationError` and performs zero network calls to the exchange —
no signing, no order submission, no ledger write (and no protective
placement). -/
theorem C3_auto_trading_disabled_blocks (env : Env) (signal : TradeSignal)
    (us : UserSettings) (hus : env.userSettings = some us)
    (hoff : us.auto_trading_enabled = false) :
    executeTrade env signal =
      ⟨.error (.configurationError "Auto trading is disabled for this user"),
        noEffects⟩ :=
  executeTrade_disabled env signal us hus hoff

/-- Witness for C3 at a concrete input. -/
theorem C3_auto_trading_disabled_blocks_witness :
    executeTrade offEnv marketBuy =
      ⟨.error (.configurationError "Auto trading is disabled for this user"),
        noEffects⟩ :=
  C3_auto_trading_disabled_blocks offEnv marketBuy offSettings rfl rfl

/-! ## C8 -/

/-- C8: whenever the exchange responds non-2xx (`response.ok` false),
`execute_trade` writes nothing to the ledger, and if the order POST was
made at all the call fails with an `ExchangeError` carrying the raw
response status and body. -/
theorem C8_exchange_rejection_not_persisted (env : Env) (signal : TradeSignal)
    (hng : env.exchangeOk = false) :
    (executeTrade env signal).effects.ledgerInserts = [] ∧
    ((executeTrade env signal).effects.exchangeOrderCalls ≠ 0 →
      (executeTrade env signal).result =
        Except.error (.exchangeError env.exchangeStatus env.exchangeErrorText)) := by
  unfold executeTrade
  cases hus : env.userSettings with
  | none => simp [noEffects]
  | some us =>
    simp only [hng, Bool.not_false]
    split_ifs <;> simp [noEffects]

/-- Witness for C8 at a concrete input: the exchange rejects with status
400 and body `bad`; the POST happened, the error surfaces both, and the
ledger stays empty. -/
theorem C8_exchange_rejection_not_persisted_witness :
    (executeTrade rejEnv marketBuy).effects.exchangeOrderCalls = 1 ∧
    (executeTrade rejEnv marketBuy).effects.ledgerInserts = [] ∧
    (executeTrade rejEnv marketBuy).result =
      Except.error (.exchangeError 400 "bad") := by
  have h := C8_exchange_rejection_not_persisted rejEnv marketBuy rfl
  refine ⟨?_, h.1, h.2 ?_⟩ <;>
    · simp [executeTrade, rejEnv, okEnv, okSettings, marketBuy, dailyTradesQuery,
        dailyTradesFilter, truthyStr, truthyNum, noEffects]
      norm_num

/-! ## C4 -/

/-- C4: for every order with auto TP/SL enabled and at least one fill,
with reference fill price `P = fills[0].price` and resolved percentages
slPercent = 5 and tpPercent = 10: on side BUY the stored protective
prices are `P × 0.95` and `P × 1.10`, on side SELL they are `P × 1.05`
and `P × 0.90`, exactly (rational arithmetic, no rounding). -/
theorem C4_protective_price_formula (env : Env) (signal : TradeSignal)
    (us : UserSettings) (r : ExecSuccess) (f : Fill) (rest : List Fill)
    (hus : env.userSettings = some us)
    (hok : (executeTrade env signal).result = Except.ok r)
    (hen : us.auto_tp_sl_enabled = true)
    (hf : env.exchangeOrder.fills = some (f :: rest))
    (hsl : jsOrNum signal.stopLossPercent us.default_stop_loss_percent = 5)
    (htp : jsOrNum signal.takeProfitPercent us.default_take_profit_percent = 10) :
    (signal.side = Side.BUY →
      r.stopLossPrice = some (f.price * (95 / 100)) ∧
      r.takeProfitPrice = some (f.price * (110 / 100))) ∧
    (signal.side = Side.SELL →
      r.stopLossPrice = some (f.price * (105 / 100)) ∧
      r.takeProfitPrice = some (f.price * (90 / 100))) := by
  obtain ⟨h1, h2, -, -, -, -⟩ := executeTrade_ok_inv env signal us r hus hok
  rw [h1, h2]
  simp only [computeProtPrices, hf, hen, hsl, htp, if_true]
  constructor
  · intro hb
    simp only [hb, if_pos]
    constructor <;> · congr 1; ring
  · intro hs
    have hnb : ¬(signal.side = Side.BUY) := by rw [hs]; intro hc; cases hc
    simp only [if_neg hnb]
    constructor <;> · congr 1; ring

/-- Witness for C4: the success payload `executeTrade` produces in the
benign fixture environment. -/
def okSuccess : ExecSuccess :=
  ⟨buildOrderData marketBuy okSettings filledOrder (some 95) (some 110),
    some 95, some 110, true⟩

/-- Witness for C4 at a concrete input: fill price 100, default
percentages 5 and 10, side BUY; the protective prices are 95 and 110. -/
theorem C4_protective_price_formula_witness :
    (executeTrade okEnv marketBuy).result = Except.ok okSuccess ∧
    okSuccess.stopLossPrice = some ((100 : ℚ) * (95 / 100)) ∧
    okSuccess.takeProfitPrice = some ((100 : ℚ) * (110 / 100)) := by
  have hok : (executeTrade okEnv marketBuy).result = Except.ok okSuccess := by
    simp only [executeTrade, okEnv, okSettings, marketBuy, filledOrder, okSuccess,
      dailyTradesQuery, dailyTradesFilter, computeProtPrices, buildOrderData,
      tpslGate, truthyStr, truthyNum, jsOrNum]
    norm_num
    simp
  have h := C4_protective_price_formula okEnv marketBuy okSettings okSuccess
    ⟨100, 1, 1 / 10, "BNB"⟩ [] rfl hok rfl rfl rfl rfl
  exact ⟨hok, (h.1 rfl).1, (h.1 rfl).2⟩

/-! ## C5 -/

/-- The fixture `marketBuy` with an explicit per-call stop-loss percentage of `0`. -/
def sigZeroSL : TradeSignal := { marketBuy with stopLossPercent := some 0 }

/-- In the benign fixture environment, the request with per-call
stop-loss percent 0 produces the same payload as the request without one:
JS `||` treats the given 0 as absent and falls back to the default 5%. -/
lemma executeTrade_zeroSL_ok :
    (executeTrade okEnv sigZeroSL).result = Except.ok okSuccess := by
  simp only [executeTrade, okEnv, okSettings, sigZeroSL, marketBuy, filledOrder,
    okSuccess, dailyTradesQuery, dailyTradesFilter, computeProtPrices,
    buildOrderData, tpslGate, truthyStr, truthyNum, jsOrNum]
  norm_num
  simp

/-- C5 counterexample: with per-call `stopLossPercent = 0` given in the
request and account default 5, fill price 100, the persisted stop loss is
95 = 100 × (1 − 5/100), not 100 × (1 − 0/100) as the claim (per-call
value used even when 0) requires. -/
theorem C5_counterexample :
    (executeTrade okEnv sigZeroSL).result = Except.ok okSuccess ∧
    okSuccess.stopLossPrice = some (95 : ℚ) ∧
    some (95 : ℚ) ≠ some ((100 : ℚ) * (1 - 0 / 100)) := by
  refine ⟨executeTrade_zeroSL_ok, rfl, by norm_num⟩

/-- C5 amended: the per-call percentage is used only when it is given
and nonzero (JS `||` truthiness); when it is absent or given as 0, the
account default is used instead. -/
theorem C5_percent_resolution (env : Env) (signal : TradeSignal)
    (us : UserSettings) (r : ExecSuccess) (f : Fill) (rest : List Fill)
    (hus : env.userSettings = some us)
    (hok : (executeTrade env signal).result = Except.ok r)
    (hen : us.auto_tp_sl_enabled = true)
    (hf : env.exchangeOrder.fills = some (f :: rest)) :
    (∀ q : ℚ, signal.stopLossPercent = some q → q ≠ 0 →
      r.stopLossPrice = some (f.price *
        (if signal.side = Side.BUY then 1 - q / 100 else 1 + q / 100))) ∧
    ((signal.stopLossPercent = none ∨ signal.stopLossPercent = some 0) →
      r.stopLossPrice = some (f.price *
        (if signal.side = Side.BUY then 1 - us.default_stop_loss_percent / 100
         else 1 + us.default_stop_loss_percent / 100))) ∧
    (∀ q : ℚ, signal.takeProfitPercent = some q → q ≠ 0 →
      r.takeProfitPrice = some (f.price *
        (if signal.side = Side.BUY then 1 + q / 100 else 1 - q / 100))) ∧
    ((signal.takeProfitPercent = none ∨ signal.takeProfitPercent = some 0) →
      r.takeProfitPrice = some (f.price *
        (if signal.side = Side.BUY then 1 + us.default_take_profit_percent / 100
         else 1 - us.default_take_profit_percent / 100))) := by
  obtain ⟨h1, h2, -, -, -, -⟩ := executeTrade_ok_inv env signal us r hus hok
  rw [h1, h2]
  simp only [computeProtPrices, hf, hen, if_true]
  refine ⟨?_, ?_, ?_, ?_⟩
  · intro q hq hq0
    simp only [hq, jsOrNum, if_neg hq0]
    by_cases hb : signal.side = Side.BUY <;> simp [hb]
  · intro hq
    rcases hq with hq | hq <;>
      · simp only [hq, jsOrNum]
        by_cases hb : signal.side = Side.BUY <;> simp [hb]
  · intro q hq hq0
    simp only [hq, jsOrNum, if_neg hq0]
    by_cases hb : signal.side = Side.BUY <;> simp [hb]
  · intro hq
    rcases hq with hq | hq <;>
      · simp only [hq, jsOrNum]
        by_cases hb : signal.side = Side.BUY <;> simp [hb]

/-- Witness for the amended C5 at a concrete input: per-call stop-loss
percent 0 given, account default 5 used. -/
theorem C5_percent_resolution_witness :
    (executeTrade okEnv sigZeroSL).result = Except.ok okSuccess ∧
    okSuccess.stopLossPrice =
      some ((100 : ℚ) * (1 - okSettings.default_stop_loss_percent / 100)) := by
  have h := C5_percent_resolution okEnv sigZeroSL okSettings okSuccess
    ⟨100, 1, 1 / 10, "BNB"⟩ [] rfl executeTrade_zeroSL_ok rfl rfl
  refine ⟨executeTrade_zeroSL_ok, ?_⟩
  have h2 := h.2.1 (Or.inr rfl)
  simpa [sigZeroSL, marketBuy] using h2

/-! ## C6 -/

/-- C6: for every BUY market order whose exchange response reports no
fills (absent or empty array), a successful `executeTrade` persists the
row with both protective prices null while `auto_tp_sl_enabled` on the
row is still copied from the user's settings, and `placeTPSLOrders` is
never invoked. -/
theorem C6_no_fills_null_protection (env : Env) (signal : TradeSignal)
    (us : UserSettings) (r : ExecSuccess)
    (hus : env.userSettings = some us)
    (hok : (executeTrade env signal).result = Except.ok r)
    (hside : signal.side = Side.BUY)
    (htype : signal.type = OrderType.MARKET)
    (hf : env.exchangeOrder.fills = none ∨ env.exchangeOrder.fills = some []) :
    r.order.stop_loss_price = none ∧
    r.order.take_profit_price = none ∧
    r.order.auto_tp_sl_enabled = us.auto_tp_sl_enabled ∧
    (executeTrade env signal).effects.ledgerInserts = [r.order] ∧
    (executeTrade env signal).effects.tpslPlacerInvoked = false := by
  obtain ⟨h1, h2, h3, h4, h5, h6⟩ := executeTrade_ok_inv env signal us r hus hok
  have hcp : computeProtPrices us signal env.exchangeOrder = (none, none) := by
    rcases hf with hf | hf <;> simp [computeProtPrices, hf]
  refine ⟨?_, ?_, ?_, h5, ?_⟩
  · rw [h3, hcp]; simp [buildOrderData]
  · rw [h3, hcp]; simp [buildOrderData]
  · rw [h3]; simp [buildOrderData]
  · rw [h6, h1, hcp]; simp [tpslGate, truthyNum]

/-- Exchange response accepted but not yet filled: no fills array,
status `NEW`, nothing executed. -/
def noFillsOrder : BinanceOrderResponse :=
  { filledOrder with fills := none, status := "NEW", executedQty := 0 }

/-- The fixture `okEnv` whose exchange response reports no fills. -/
def noFillsEnv : Env := { okEnv with exchangeOrder := noFillsOrder }

/-- The payload `executeTrade` produces in `noFillsEnv`. -/
def noFillsSuccess : ExecSuccess :=
  ⟨buildOrderData marketBuy okSettings noFillsOrder none none, none, none, true⟩

/-- Witness for C6 at a concrete input. -/
theorem C6_no_fills_null_protection_witness :
    (executeTrade noFillsEnv marketBuy).result = Except.ok noFillsSuccess ∧
    noFillsSuccess.order.stop_loss_price = none ∧
    noFillsSuccess.order.take_profit_price = none ∧
    noFillsSuccess.order.auto_tp_sl_enabled = okSettings.auto_tp_sl_enabled ∧
    (executeTrade noFillsEnv marketBuy).effects.ledgerInserts =
      [noFillsSuccess.order] ∧
    (executeTrade noFillsEnv marketBuy).effects.tpslPlacerInvoked = false := by
  have hok : (executeTrade noFillsEnv marketBuy).result = Except.ok noFillsSuccess := by
    simp only [executeTrade, noFillsEnv, okEnv, okSettings, marketBuy, noFillsOrder,
      filledOrder, noFillsSuccess, dailyTradesQuery, dailyTradesFilter,
      computeProtPrices, buildOrderData, tpslGate, truthyStr, truthyNum, jsOrNum]
    norm_num
    simp
  have h := C6_no_fills_null_protection noFillsEnv marketBuy okSettings
    noFillsSuccess rfl hok rfl rfl (Or.inl rfl)
  exact ⟨hok, h.1, h.2.1, h.2.2.1, h.2.2.2.1, h.2.2.2.2⟩

/-! ## C7 -/

/-- C7: per evaluated position, the trigger decision of
`checkTakeProfitStopLoss` (the `evalTrigger` chain of part_000 lines
322–342) fires at most one trigger (the result is a single `Option`),
checks stop-loss first, and satisfies: side BUY — STOP_LOSS iff
price ≤ stopLoss, else TAKE_PROFIT iff price ≥ takeProfit; side SELL —
STOP_LOSS iff price ≥ stopLoss, else TAKE_PROFIT iff price ≤ takeProfit;
the else-if gives stop-loss precedence when both conditions hold. -/
theorem C7_trigger_rules (p : Position) (price : ℚ) :
    (p.side = "BUY" →
      (evalTrigger p price = some TriggerType.STOP_LOSS ↔
        price ≤ p.stop_loss_price) ∧
      (evalTrigger p price = some TriggerType.TAKE_PROFIT ↔
        p.stop_loss_price < price ∧ p.take_profit_price ≤ price)) ∧
    (p.side = "SELL" →
      (evalTrigger p price = some TriggerType.STOP_LOSS ↔
        p.stop_loss_price ≤ price) ∧
      (evalTrigger p price = some TriggerType.TAKE_PROFIT ↔
        price < p.stop_loss_price ∧ price ≤ p.take_profit_price)) := by
  unfold evalTrigger
  constructor
  · intro hb
    rw [if_pos hb]
    split_ifs with h1 h2 <;> simp_all [not_le]
  · intro hs
    have hnb : ¬(p.side = "BUY") := by simp [hs]
    rw [if_neg hnb]
    split_ifs with h1 h2 <;> simp_all [not_le]

/-- An open BUY position with stop loss 95 and take profit 110. -/
def buyPos : Position := ⟨"p1", "BTCUSDT", "BUY", 1, 95, 110, none⟩

/-- An open SELL position with stop loss 105 and take profit 90. -/
def sellPos : Position := ⟨"p2", "BTCUSDT", "SELL", 1, 105, 90, none⟩

/-- Witness for C7 at concrete inputs: the boundary stop-loss trigger on
a BUY position, a take-profit trigger on a BUY position, and a stop-loss
trigger on a SELL position. -/
theorem C7_trigger_rules_witness :
    evalTrigger buyPos 95 = some TriggerType.STOP_LOSS ∧
    evalTrigger buyPos 111 = some TriggerType.TAKE_PROFIT ∧
    evalTrigger sellPos 106 = some TriggerType.STOP_LOSS :=
  ⟨((C7_trigger_rules buyPos 95).1 rfl).1.mpr (by norm_num [buyPos]),
   ((C7_trigger_rules buyPos 111).1 rfl).2.mpr (by norm_num [buyPos]),
   ((C7_trigger_rules sellPos 106).2 rfl).1.mpr (by norm_num [sellPos])⟩

/-! ## C9 -/

/-- C9: when the daily-count query errors, `executeTrade` only logs, the
daily-limit gate is skipped — the call can never fail with the
daily-limit error and behaves identically whatever the orders table
contains — so the trade proceeds to submission even when the user's true
daily count is at or above `max_daily_trades`. -/
theorem C9_query_error_skips_daily_limit (env : Env) (signal : TradeSignal)
    (l : List LedgerRow) (hqe : env.tradesQueryError = true) :
    (executeTrade env signal).result ≠
      Except.error (.limitExceededError "Daily trade limit reached") ∧
    executeTrade env signal = executeTrade { env with ledger := l } signal := by
  constructor
  · unfold executeTrade
    cases hus : env.userSettings with
    | none => simp
    | some us =>
      simp only [dailyTradesQuery, hqe, if_true]
      split_ifs <;> simp_all
  · unfold executeTrade
    simp [dailyTradesQuery, hqe]

/-- The fixture `okSettings` with a cap of one trade per day. -/
def cap1Settings : UserSettings := { okSettings with max_daily_trades := 1 }

/-- Two orders of user `u1` created during the current UTC day. -/
def busyLedger : List LedgerRow := [⟨"u1", 43000000⟩, ⟨"u1", 43100000⟩]

/-- Environment where the daily-count query errors while the user is
already over the one-per-day cap. -/
def envC9 : Env :=
  ⟨43200000, some cap1Settings, true, busyLedger, true, 200, "", filledOrder, false⟩

/-- Witness for C9 at a concrete input: the query errors, two same-day
orders already exist against a cap of 1, yet the trade is executed. -/
theorem C9_query_error_skips_daily_limit_witness :
    (executeTrade envC9 marketBuy).result ≠
      Except.error (.limitExceededError "Daily trade limit reached") ∧
    executeTrade envC9 marketBuy = executeTrade { envC9 with ledger := [] } marketBuy ∧
    cap1Settings.max_daily_trades ≤
      (dailyTradesFilter envC9.now "u1" envC9.ledger).length ∧
    (executeTrade envC9 marketBuy).result.isOk = true := by
  have h := C9_query_error_skips_daily_limit envC9 marketBuy [] rfl
  refine ⟨h.1, h.2, ?_, ?_⟩
  · decide
  · simp only [executeTrade, envC9, okEnv, cap1Settings, okSettings, marketBuy,
      filledOrder, dailyTradesQuery, dailyTradesFilter, computeProtPrices,
      buildOrderData, tpslGate, truthyStr, truthyNum, jsOrNum]
    norm_num
    rfl

/-! ## C2 -/

/-- The UTC-calendar-day window as the spec words it: inclusive from
00:00:00.000 UTC, exclusive at the start of the following day.  Stated
from the spec, for comparison with the window of the query the code
actually builds (`dailyTradesFilter`). -/
def inUtcCalendarDay (now t : ℕ) : Bool :=
  decide (dayStart now ≤ t) && decide (t < dayStart now + msPerDay)

/-- An order of user `u1` created at 23:59:59.999 UTC of day 0 — the
final representable millisecond of the day. -/
def lastMsRow : LedgerRow := ⟨"u1", 86399999⟩

/-- Noon of day 0, cap of one trade per day, and one order of the user
created at the final millisecond of the day. -/
def envC2 : Env :=
  ⟨43200000, some cap1Settings, false, [lastMsRow], true, 200, "", filledOrder, false⟩

/-- C2 counterexample: the order created at 23:59:59.999 lies in the
spec's UTC calendar day, the cap is 1, yet the code's query does not
count it and the trade goes through instead of failing the daily limit:
the query's upper bound is `lt ${today}T23:59:59.999Z`, which excludes
the final millisecond. -/
theorem C2_counterexample :
    inUtcCalendarDay envC2.now lastMsRow.createdAt = true ∧
    cap1Settings.max_daily_trades = 1 ∧
    dailyTradesFilter envC2.now marketBuy.userId envC2.ledger = [] ∧
    (executeTrade envC2 marketBuy).result ≠
      Except.error (.limitExceededError "Daily trade limit reached") := by
  refine ⟨by decide, rfl, by decide, ?_⟩
  simp only [executeTrade, envC2, cap1Settings, okSettings, marketBuy, filledOrder,
    lastMsRow, dailyTradesQuery, dailyTradesFilter, computeProtPrices,
    buildOrderData, tpslGate, truthyStr, truthyNum, jsOrNum, List.filter,
    dayStart, msPerDay]
  norm_num
  simp

/-- C2 amended: the daily count compared against `max_daily_trades`
counts the user's orders with `dayStart ≤ created_at` and
`created_at + 1 < dayStart + 86400000`, i.e. the window is inclusive at
00:00:00.000 UTC but ends one millisecond before the following day, so
an order created at the final millisecond 23:59:59.999 is not counted;
given settings present, auto-trading on, credentials set, and the count
query succeeding, `execute_trade` fails with the daily-limit error
exactly when that count has reached the cap. -/
theorem C2_daily_window (env : Env) (signal : TradeSignal) (us : UserSettings)
    (hus : env.userSettings = some us)
    (hon : us.auto_trading_enabled = true)
    (hk : truthyStr us.binance_api_key = true)
    (hs : truthyStr us.binance_secret_key = true)
    (hq : env.tradesQueryError = false) :
    ((executeTrade env signal).result =
        Except.error (.limitExceededError "Daily trade limit reached") ↔
      us.max_daily_trades ≤
        (dailyTradesFilter env.now signal.userId env.ledger).length) ∧
    (∀ row : LedgerRow,
      row ∈ dailyTradesFilter env.now signal.userId env.ledger ↔
        (row ∈ env.ledger ∧ row.userId = signal.userId ∧
          dayStart env.now ≤ row.createdAt ∧
          row.createdAt + 1 < dayStart env.now + 86400000)) := by
  constructor
  · constructor
    · intro h
      simp only [executeTrade, hus, hon, hk, hs, dailyTradesQuery, hq] at h
      split_ifs at h <;> simp_all
    · intro hcnt
      rw [executeTrade_daily_cap env signal us hus hon hk hs hq hcnt]
  · intro row
    simp only [dailyTradesFilter, List.mem_filter, decide_eq_true_eq, msPerDay]
    constructor
    · rintro ⟨hm, hu, h1, h2⟩
      exact ⟨hm, hu, h1, by omega⟩
    · rintro ⟨hm, hu, h1, h2⟩
      exact ⟨hm, hu, h1, by omega⟩

/-- Noon of day 0, cap of one trade per day, two orders of the user
already created earlier in the day, count query succeeding. -/
def envCap : Env :=
  ⟨43200000, some cap1Settings, false, busyLedger, true, 200, "", filledOrder, false⟩

/-- Witness for the amended C2 at a concrete input: two counted same-day
orders against a cap of 1 make `executeTrade` fail the daily gate, and
the window characterization instantiated at the final-millisecond row. -/
theorem C2_daily_window_witness :
    (executeTrade envCap marketBuy).result =
      Except.error (.limitExceededError "Daily trade limit reached") ∧
    (lastMsRow ∈ dailyTradesFilter envCap.now marketBuy.userId envCap.ledger ↔
      (lastMsRow ∈ envCap.ledger ∧ lastMsRow.userId = marketBuy.userId ∧
        dayStart envCap.now ≤ lastMsRow.createdAt ∧
        lastMsRow.createdAt + 1 < dayStart envCap.now + 86400000)) := by
  have h := C2_daily_window envCap marketBuy cap1Settings rfl rfl (by decide)
    (by decide) rfl
  exact ⟨h.1.mpr (by decide), h.2 lastMsRow⟩

/-! ## C1 -/

/-- A LIMIT order request with a price present (50000) and an explicit
GTC time in force. -/
def limitSig : TradeSignal :=
  ⟨"BTCUSDT", .BUY, 1, some 50000, .LIMIT, some TIF.GTC, "u1", none, none, none⟩

/-- C1: for a LIMIT request with a price, the branch of part_000 lines
138–140 assigns to the `const` binding `queryString` declared at line
136, so the invocation throws a TypeError (`Assignment to constant
variable`) before anything is signed, sent to the exchange, or written
to the ledger — it does not run to submission as the spec describes. -/
theorem C1_limit_branch_faults :
    executeTrade okEnv limitSig =
      ⟨.error (.runtimeFault "Assignment to constant variable"), noEffects⟩ := by
  simp only [executeTrade, okEnv, okSettings, limitSig, marketBuy,
    dailyTradesQuery, dailyTradesFilter, truthyStr, truthyNum, jsOrNum,
    List.filter]
  norm_num
  simp

/-! ## C10 -/

/-- When every synthesized closing trade fails without side effects, the
position loop as a whole performs no exchange call, no ledger write and
no protective placement. -/
lemma runPositions_effects_noEffects (tradeEnv : Env) (userId : String)
    (priceOf : String → ℚ)
    (h : ∀ q : Position,
      (executeTrade tradeEnv (closeSignal userId q)).effects = noEffects) :
    ∀ l : List Position, (runPositions tradeEnv userId priceOf l).2 = noEffects := by
  intro l
  induction l with
  | nil => rfl
  | cons p rest ih =>
    have hp : (processPosition tradeEnv userId p (priceOf p.symbol)).2 = noEffects := by
      unfold processPosition
      cases evalTrigger p (priceOf p.symbol) with
      | none => rfl
      | some t =>
        cases hres : (executeTrade tradeEnv (closeSignal userId p)).result with
        | ok v => simp [hres, h p]
        | error e => simp [hres, h p]
    simp only [runPositions]
    rw [hp, ih]
    simp [addEffects, noEffects]

/-- The entry produced for a position in the loop body is among the
collected results. -/
lemma runPositions_mem (tradeEnv : Env) (userId : String)
    (priceOf : String → ℚ) (p : Position) (e : ExitEntry) :
    ∀ l : List Position, p ∈ l →
      (processPosition tradeEnv userId p (priceOf p.symbol)).1 = some e →
      e ∈ (runPositions tradeEnv userId priceOf l).1 := by
  intro l
  induction l with
  | nil => intro h; cases h
  | cons q rest ih =>
    intro hmem he
    simp only [runPositions, List.mem_append]
    rcases List.mem_cons.mp hmem with hq | hmem2
    · subst hq
      left
      simp [he]
    · right
      exact ih hmem2 he

/-- C10: every closing trade synthesized by `checkTakeProfitStopLoss`
re-enters `executeTrade` and is subject to all of its gates: for a user
with auto TP/SL on but auto trading off, every triggered protective exit
fails with the configuration error and the whole evaluation performs no
exchange call and writes nothing (the position stays open); likewise,
when the daily cap is already reached (and the count query succeeds),
every triggered closing trade is rejected by the daily-limit gate with
no side effects. -/
theorem C10_protective_exit_gated (cenv : CheckEnv) (userId : String)
    (us us2 : UserSettings) (ps : List Position) (p : Position) (t : TriggerType)
    (hset : cenv.userSettings = some us)
    (hen : us.auto_tp_sl_enabled = true)
    (hps : cenv.positions = some ps)
    (hp : p ∈ ps)
    (ht : evalTrigger p (cenv.priceOf p.symbol) = some t)
    (hus2 : cenv.tradeEnv.userSettings = some us2) :
    (us2.auto_trading_enabled = false →
      processPosition cenv.tradeEnv userId p (cenv.priceOf p.symbol) =
        (some ⟨p.id,
          .error (.configurationError "Auto trading is disabled for this user")⟩,
          noEffects) ∧
      checkTakeProfitStopLoss cenv userId =
        .results (runPositions cenv.tradeEnv userId cenv.priceOf ps).1 noEffects ∧
      (⟨p.id,
        .error (.configurationError "Auto trading is disabled for this user")⟩ :
          ExitEntry) ∈ (runPositions cenv.tradeEnv userId cenv.priceOf ps).1) ∧
    (us2.auto_trading_enabled = true →
      truthyStr us2.binance_api_key = true →
      truthyStr us2.binance_secret_key = true →
      cenv.tradeEnv.tradesQueryError = false →
      us2.max_daily_trades ≤
        (dailyTradesFilter cenv.tradeEnv.now userId cenv.tradeEnv.ledger).length →
      processPosition cenv.tradeEnv userId p (cenv.priceOf p.symbol) =
        (some ⟨p.id, .error (.limitExceededError "Daily trade limit reached")⟩,
          noEffects) ∧
      checkTakeProfitStopLoss cenv userId =
        .results (runPositions cenv.tradeEnv userId cenv.priceOf ps).1 noEffects ∧
      (⟨p.id, .error (.limitExceededError "Daily trade limit reached")⟩ :
          ExitEntry) ∈ (runPositions cenv.tradeEnv userId cenv.priceOf ps).1) := by
  constructor
  · intro hoff
    have he : ∀ q : Position, executeTrade cenv.tradeEnv (closeSignal userId q) =
        ⟨.error (.configurationError "Auto trading is disabled for this user"),
          noEffects⟩ :=
      fun q => executeTrade_disabled _ _ us2 hus2 hoff
    have hpp : processPosition cenv.tradeEnv userId p (cenv.priceOf p.symbol) =
        (some ⟨p.id,
          .error (.configurationError "Auto trading is disabled for this user")⟩,
          noEffects) := by
      unfold processPosition
      rw [ht, he p]
    have heff := runPositions_effects_noEffects cenv.tradeEnv userId cenv.priceOf
      (fun q => by rw [he q]) ps
    refine ⟨hpp, ?_, ?_⟩
    · simp only [checkTakeProfitStopLoss, hset, hen, hps, Bool.not_true, heff,
        Bool.false_eq_true, if_false]
    · exact runPositions_mem cenv.tradeEnv userId cenv.priceOf p _ ps hp
        (by rw [hpp])
  · intro hon hk hs hq hcnt
    have he : ∀ q : Position, executeTrade cenv.tradeEnv (closeSignal userId q) =
        ⟨.error (.limitExceededError "Daily trade limit reached"), noEffects⟩ :=
      fun q => executeTrade_daily_cap _ _ us2 hus2 hon hk hs hq hcnt
    have hpp : processPosition cenv.tradeEnv userId p (cenv.priceOf p.symbol) =
        (some ⟨p.id, .error (.limitExceededError "Daily trade limit reached")⟩,
          noEffects) := by
      unfold processPosition
      rw [ht, he p]
    have heff := runPositions_effects_noEffects cenv.tradeEnv userId cenv.priceOf
      (fun q => by rw [he q]) ps
    refine ⟨hpp, ?_, ?_⟩
    · simp only [checkTakeProfitStopLoss, hset, hen, hps, Bool.not_true, heff,
        Bool.false_eq_true, if_false]
    · exact runPositions_mem cenv.tradeEnv userId cenv.priceOf p _ ps hp
        (by rw [hpp])

/-- Position monitor environment for a user with auto TP/SL on whose
nested trades run against `offEnv` (auto trading off): one open BUY
position, current price 90 (below its stop loss 95). -/
def checkEnvOff : CheckEnv :=
  ⟨some okSettings, some [buyPos], fun _ => 90, offEnv⟩

/-- Witness for C10 at a concrete input: the triggered stop-loss exit on
the BUY position fails with the configuration error, nothing is
submitted or written, and the error entry is collected. -/
theorem C10_protective_exit_gated_witness :
    processPosition checkEnvOff.tradeEnv "u1" buyPos (checkEnvOff.priceOf buyPos.symbol) =
      (some ⟨"p1",
        .error (.configurationError "Auto trading is disabled for this user")⟩,
        noEffects) ∧
    checkTakeProfitStopLoss checkEnvOff "u1" =
      .results (runPositions checkEnvOff.tradeEnv "u1" checkEnvOff.priceOf [buyPos]).1
        noEffects ∧
    (⟨"p1", .error (.configurationError "Auto trading is disabled for this user")⟩ :
        ExitEntry) ∈
      (runPositions checkEnvOff.tradeEnv "u1" checkEnvOff.priceOf [buyPos]).1 := by
  have ht : evalTrigger buyPos (checkEnvOff.priceOf buyPos.symbol) =
      some TriggerType.STOP_LOSS := by
    simp [evalTrigger, buyPos, checkEnvOff]
    norm_num
  have h := (C10_protective_exit_gated checkEnvOff "u1" okSettings offSettings
    [buyPos] buyPos TriggerType.STOP_LOSS rfl rfl rfl (List.mem_singleton.mpr rfl)
    ht rfl).1 rfl
  exact h

end BinanceGuardian
